import Mathlib

/-!
Shallow embedding of `src/charon-cmd/cmd/cmd_connection.c` (strongSwan's
charon-cmd connection handler) and proofs about its profile resolution,
authentication-configuration assembly, traffic-selector handling and
initiation workflow.

External collaborators (the CIDR parser, the socket port query, the
controller) are modelled as parameters or, where the spec is the only
available description, as spec-modelled definitions marked as such.
-/

namespace CmdConn

/-- Connection profiles supported (C enum `profile_t`). -/
inductive Profile where
  | PROF_UNDEF
  | PROF_V2_PUB
  | PROF_V2_EAP
  | PROF_V2_PUB_EAP
  | PROF_V1_PUB
  | PROF_V1_XAUTH
  | PROF_V1_XAUTH_PSK
  | PROF_V1_HYBRID
deriving DecidableEq, Repr

/-- Profile names as declared by the `ENUM(profile_names, ...)` block; the
range starts at `PROF_V2_PUB`, so `PROF_UNDEF` has no name. -/
def profile_names : Profile → Option String
  | .PROF_UNDEF => none
  | .PROF_V2_PUB => some "ikev2-pub"
  | .PROF_V2_EAP => some "ikev2-eap"
  | .PROF_V2_PUB_EAP => some "ikev2-pub-eap"
  | .PROF_V1_PUB => some "ikev1-pub"
  | .PROF_V1_XAUTH => some "ikev1-xauth"
  | .PROF_V1_XAUTH_PSK => some "ikev1-xauth-psk"
  | .PROF_V1_HYBRID => some "ikev1-hybrid"

/-- Name lookup over `profile_names` (C helper `enum_from_name`); returns
`none` where the C function returns -1. -/
def enum_from_name (name : String) : Option Profile :=
  if name = "ikev2-pub" then some .PROF_V2_PUB
  else if name = "ikev2-eap" then some .PROF_V2_EAP
  else if name = "ikev2-pub-eap" then some .PROF_V2_PUB_EAP
  else if name = "ikev1-pub" then some .PROF_V1_PUB
  else if name = "ikev1-xauth" then some .PROF_V1_XAUTH
  else if name = "ikev1-xauth-psk" then some .PROF_V1_XAUTH_PSK
  else if name = "ikev1-hybrid" then some .PROF_V1_HYBRID
  else none

/-- Authentication method classes (strongSwan `auth_class_t`), as used by
this file. -/
inductive AuthClass where
  | AUTH_CLASS_ANY
  | AUTH_CLASS_PUBKEY
  | AUTH_CLASS_PSK
  | AUTH_CLASS_EAP
  | AUTH_CLASS_XAUTH
deriving DecidableEq, Repr

/-- IKE protocol versions (strongSwan `ike_version_t`). -/
inductive IkeVersion where
  | IKE_ANY
  | IKEV1
  | IKEV2
deriving DecidableEq, Repr

/-- Standard IKE UDP port. -/
def IKEV2_UDP_PORT : Nat := 500

/-- NAT-traversal fallback UDP port. -/
def IKEV2_NATT_PORT : Nat := 4500

/-- Traffic selectors as constructed by this file: a dynamic selector
(`traffic_selector_create_dynamic`), an explicit IPv4 address range
(`traffic_selector_create_from_string` with `TS_IPV4_ADDR_RANGE`), or the
result of the external CIDR parser (`traffic_selector_create_from_cidr`),
kept opaque up to its source text and the port arguments passed. -/
inductive TrafficSelector where
  | dynamic (protocol from_port to_port : Nat)
  | ipv4_addr_range (protocol : Nat) (from_addr : String) (from_port : Nat)
      (to_addr : String) (to_port : Nat)
  | from_cidr (cidr : String) (protocol from_port to_port : Nat)
deriving DecidableEq, Repr

/-- Proposal protocols used here. -/
inductive Proto where
  | PROTO_IKE
  | PROTO_ESP
deriving DecidableEq, Repr

/-- A default proposal (`proposal_create_default`), opaque up to its
protocol. -/
structure Proposal where
  proto : Proto
deriving DecidableEq, Repr

/-- `proposal_create_default`. -/
def proposal_create_default (p : Proto) : Proposal := ⟨p⟩

/-- The parameters `ike_cfg_create` receives in `create_peer_cfg`. -/
structure IkeCfg where
  version : IkeVersion
  certreq : Bool
  force_encap : Bool
  me : String
  my_allow_any : Bool
  my_port : Nat
  other : Option String
  other_allow_any : Bool
  other_port : Nat
  proposals : List Proposal
deriving DecidableEq, Repr

/-- One authentication config as assembled by `add_auth_cfg`: the
`AUTH_RULE_AUTH_CLASS` and `AUTH_RULE_IDENTITY` entries, together with the
side flag passed to `peer_cfg->add_auth_cfg`.  The list of these entries
records the `add_auth_cfg` calls in emission order. -/
structure AuthEntry where
  is_local : Bool
  auth_class : AuthClass
  identity : Option String
deriving DecidableEq, Repr

/-- Child (traffic-policy) config as assembled by `create_child_cfg`. -/
structure ChildCfg where
  name : String
  life_time : Nat
  rekey_time : Nat
  jitter_time : Nat
  mode_tunnel : Bool
  proposals : List Proposal
  local_ts : List TrafficSelector
  remote_ts : List TrafficSelector
deriving DecidableEq, Repr

/-- The parameters `child_cfg_create` receives in `create_child_cfg`
(lifetime 3h, rekey 2h50min, jitter 5min, tunnel mode), before proposals
and selectors are attached. -/
def child_cfg_create : ChildCfg :=
  { name := "cmd", life_time := 10800, rekey_time := 10200,
    jitter_time := 300, mode_tunnel := true, proposals := [],
    local_ts := [], remote_ts := [] }

/-- Peer config as assembled by `create_peer_cfg` (with the parameters
passed to `peer_cfg_create`), plus the auth entries, virtual IPs and child
configs attached later. -/
structure PeerCfg where
  name : String
  ike_cfg : IkeCfg
  keyingtries : Nat
  rekey_time : Nat
  reauth_time : Nat
  jitter_time : Nat
  over_time : Nat
  mobike : Bool
  aggressive : Bool
  dpd_delay : Nat
  dpd_timeout : Nat
  auths : List AuthEntry
  virtual_ips : List String
  children : List ChildCfg
deriving DecidableEq, Repr

/-- Builder state `private_cmd_connection_t` (the `pid` field is not
modelled; termination is tracked as a flag in the traces below). -/
structure Conn where
  host : Option String
  server : Option String
  identity : Option String
  key_seen : Bool
  profile : Profile
  local_ts : List TrafficSelector
  remote_ts : List TrafficSelector
deriving DecidableEq, Repr

/-- `create_peer_cfg`: version from the profile switch, local port from the
socket query (a parameter here), remote port 500 unless the local port
differs from 500, in which case 4500; fixed timers; default IKE proposal;
wildcard virtual IP. -/
def create_peer_cfg (self : Conn) (local_port : Nat) : PeerCfg :=
  let version : IkeVersion :=
    match self.profile with
    | .PROF_UNDEF | .PROF_V2_PUB | .PROF_V2_EAP | .PROF_V2_PUB_EAP =>
        .IKEV2
    | .PROF_V1_PUB | .PROF_V1_XAUTH | .PROF_V1_XAUTH_PSK
    | .PROF_V1_HYBRID => .IKEV1
  let remote_port : Nat :=
    if local_port ≠ IKEV2_UDP_PORT then IKEV2_NATT_PORT else IKEV2_UDP_PORT
  let ike_cfg : IkeCfg :=
    { version := version, certreq := true, force_encap := false,
      me := "0.0.0.0", my_allow_any := false, my_port := local_port,
      other := self.host, other_allow_any := false,
      other_port := remote_port,
      proposals := [proposal_create_default .PROTO_IKE] }
  { name := "cmd", ike_cfg := ike_cfg, keyingtries := 1,
    rekey_time := 36000, reauth_time := 0, jitter_time := 600,
    over_time := 600, mobike := true, aggressive := false,
    dpd_delay := 30, dpd_timeout := 0, auths := [],
    virtual_ips := ["0.0.0.0"], children := [] }

/-- `add_auth_cfg`: append one auth config of the given class; a local
entry carries the local identity, a remote entry the server identity if
set, else the host. -/
def add_auth_cfg (self : Conn) (peer_cfg : PeerCfg) (loc : Bool)
    (cls : AuthClass) : PeerCfg :=
  let id : Option String :=
    if loc then self.identity
    else
      match self.server with
      | some s => some s
      | none => self.host
  { peer_cfg with
      auths := peer_cfg.auths ++ [⟨loc, cls, id⟩] }

/-- Profile inference at the top of `add_auth_cfgs`: an undefined profile
becomes `PROF_V2_PUB` when a key was seen, else `PROF_V2_EAP`. -/
def infer_profile (p : Profile) (key_seen : Bool) : Profile :=
  if p = .PROF_UNDEF then
    if key_seen then .PROF_V2_PUB else .PROF_V2_EAP
  else p

/-- The case labels of the credential-check switch in `add_auth_cfgs`:
profiles requiring a private key. -/
def requires_key : Profile → Bool
  | .PROF_V2_PUB | .PROF_V2_PUB_EAP | .PROF_V1_PUB | .PROF_V1_XAUTH => true
  | _ => false

/-- Result of `add_auth_cfgs`: success with the (mutated) state and peer
config, the missing-private-key `return FALSE` (with its DBG1 message), or
the diagnostic-free `default: return FALSE` of the emission switch. -/
inductive AuthResult where
  | ok (self : Conn) (peer_cfg : PeerCfg)
  | fail_missing_key (msg : String)
  | fail_default
deriving DecidableEq, Repr

/-- `add_auth_cfgs`: infer an undefined profile, check the credential
precondition, then emit the profile's fixed authentication sequence. -/
def add_auth_cfgs (self : Conn) (peer_cfg : PeerCfg) : AuthResult :=
  let self : Conn :=
    { self with profile := infer_profile self.profile self.key_seen }
  if requires_key self.profile && !self.key_seen then
    .fail_missing_key
      ("missing private key for profile " ++
        (profile_names self.profile).getD "")
  else
    match self.profile with
    | .PROF_V2_PUB =>
        let p := add_auth_cfg self peer_cfg true .AUTH_CLASS_PUBKEY
        let p := add_auth_cfg self p false .AUTH_CLASS_ANY
        .ok self p
    | .PROF_V2_EAP =>
        let p := add_auth_cfg self peer_cfg true .AUTH_CLASS_EAP
        let p := add_auth_cfg self p false .AUTH_CLASS_ANY
        .ok self p
    | .PROF_V2_PUB_EAP =>
        let p := add_auth_cfg self peer_cfg true .AUTH_CLASS_PUBKEY
        let p := add_auth_cfg self p true .AUTH_CLASS_EAP
        let p := add_auth_cfg self p false .AUTH_CLASS_ANY
        .ok self p
    | .PROF_V1_PUB =>
        let p := add_auth_cfg self peer_cfg true .AUTH_CLASS_PUBKEY
        let p := add_auth_cfg self p false .AUTH_CLASS_PUBKEY
        .ok self p
    | .PROF_V1_XAUTH =>
        let p := add_auth_cfg self peer_cfg true .AUTH_CLASS_PUBKEY
        let p := add_auth_cfg self p true .AUTH_CLASS_XAUTH
        let p := add_auth_cfg self p false .AUTH_CLASS_PUBKEY
        .ok self p
    | .PROF_V1_XAUTH_PSK =>
        let p := add_auth_cfg self peer_cfg true .AUTH_CLASS_PSK
        let p := add_auth_cfg self p true .AUTH_CLASS_XAUTH
        let p := add_auth_cfg self p false .AUTH_CLASS_PSK
        .ok self p
    | .PROF_V1_HYBRID =>
        let p := add_auth_cfg self peer_cfg true .AUTH_CLASS_XAUTH
        let p := add_auth_cfg self p false .AUTH_CLASS_PUBKEY
        .ok self p
    | .PROF_UNDEF => .fail_default

/-- The default remote selector synthesized in `create_child_cfg` when the
remote set is empty: `traffic_selector_create_from_string(0,
TS_IPV4_ADDR_RANGE, "0.0.0.0", 0, "255.255.255.255", 65535)`. -/
def default_remote_ts : TrafficSelector :=
  .ipv4_addr_range 0 "0.0.0.0" 0 "255.255.255.255" 65535

/-- The `while (list->remove_first ...) add_traffic_selector` drain loops:
repeatedly remove the first selector of `src` and append it to `dst`;
returns the emptied source and the extended destination. -/
def drain_ts : List TrafficSelector → List TrafficSelector →
    List TrafficSelector × List TrafficSelector
  | [], dst => ([], dst)
  | ts :: rest, dst => drain_ts rest (dst ++ [ts])

/-- `create_child_cfg`: build the child config, attach the default ESP
proposal, drain the local set, synthesize the default remote selector if
the remote set is empty, drain the remote set.  Returns the mutated state
together with the child config. -/
def create_child_cfg (self : Conn) : Conn × ChildCfg :=
  let child_cfg := child_cfg_create
  let child_cfg :=
    { child_cfg with
        proposals := child_cfg.proposals ++
          [proposal_create_default .PROTO_ESP] }
  let drained_local := drain_ts self.local_ts child_cfg.local_ts
  let child_cfg := { child_cfg with local_ts := drained_local.2 }
  let remote_src :=
    if self.remote_ts.length = 0 then self.remote_ts ++ [default_remote_ts]
    else self.remote_ts
  let drained_remote := drain_ts remote_src child_cfg.remote_ts
  let child_cfg := { child_cfg with remote_ts := drained_remote.2 }
  ({ self with local_ts := drained_local.1,
               remote_ts := drained_remote.1 }, child_cfg)

/-- Outcome of the external controller's initiate call. -/
inductive Status where
  | SUCCESS
  | FAILED
deriving DecidableEq, Repr, BEq

/-- Modelled from the spec: the external controller (`charon->controller`,
not part of the analysed source) produces a definite success/failure
outcome, and on failure emits its own diagnostic output before returning
(spec §7: a diagnostic message is emitted before termination in every
case).  Modelled as an outcome plus the diagnostics the controller itself
emits during the call. -/
structure ControllerModel where
  outcome : Status
  diags : List String
deriving DecidableEq, Repr

/-- Modelled from the spec: the well-formedness the spec ascribes to the
controller — a failure outcome is accompanied by at least one diagnostic
message. -/
def ControllerModel.spec_valid (c : ControllerModel) : Prop :=
  c.outcome = .FAILED → c.diags ≠ []

/-- Observable trace of one run of the `initiate` job: diagnostics emitted
(in order), whether `terminate` was invoked, whether the controller's
initiate operation was invoked, whether the partially-built peer config
was destroyed, and the configuration handed to the controller (if any). -/
structure InitTrace where
  diags : List String
  terminated : Bool
  controller_called : Bool
  peer_cfg_destroyed : Bool
  handed_cfg : Option (PeerCfg × ChildCfg)
deriving DecidableEq, Repr

/-- `initiate`: the deferred job.  Checks host and identity, builds the
peer config, attaches auth configs (aborting, destroying the peer config
and terminating on failure), builds and attaches the child config, then
invokes the controller; a non-success controller outcome terminates. -/
def initiate (self : Conn) (local_port : Nat) (ctrl : ControllerModel) :
    InitTrace :=
  match self.host with
  | none =>
      { diags := ["unable to initiate, missing --host option"],
        terminated := true, controller_called := false,
        peer_cfg_destroyed := false, handed_cfg := none }
  | some _ =>
    match self.identity with
    | none =>
        { diags := ["unable to initiate, missing --identity option"],
          terminated := true, controller_called := false,
          peer_cfg_destroyed := false, handed_cfg := none }
    | some _ =>
      let peer_cfg := create_peer_cfg self local_port
      match add_auth_cfgs self peer_cfg with
      | .fail_missing_key msg =>
          { diags := [msg], terminated := true,
            controller_called := false, peer_cfg_destroyed := true,
            handed_cfg := none }
      | .fail_default =>
          { diags := [], terminated := true, controller_called := false,
            peer_cfg_destroyed := true, handed_cfg := none }
      | .ok self2 peer_cfg2 =>
          let drained := create_child_cfg self2
          let child_cfg := drained.2
          let peer_cfg3 :=
            { peer_cfg2 with children := peer_cfg2.children ++ [child_cfg] }
          { diags := ctrl.diags,
            terminated := ctrl.outcome != .SUCCESS,
            controller_called := true, peer_cfg_destroyed := false,
            handed_cfg := some (peer_cfg3, child_cfg) }

/-- Result of one `add_ts` call: the updated list, the diagnostics emitted,
and whether `exit(1)` was reached.  The external CIDR parser's result for
the given string is a parameter (`parsed`). -/
structure TsStep where
  list : List TrafficSelector
  diags : List String
  exited : Bool
deriving DecidableEq, Repr

/-- `add_ts`: parse the string into a selector covering ports 0–65535 for
protocol 0; on failure print a diagnostic and exit, else append. -/
def add_ts (list : List TrafficSelector) (string : String)
    (parsed : Bool) : TsStep :=
  if parsed then
    { list := list ++ [.from_cidr string 0 0 65535], diags := [],
      exited := false }
  else
    { list := list, diags := ["invalid traffic selector: " ++ string],
      exited := true }

/-- The option values dispatched by `handle` (C enum `cmd_option_type_t`
restricted to the cases this file handles, plus a default).  For the two
selector options, the external parser's verdict on the argument is carried
alongside (`parsed = true` means `traffic_selector_create_from_cidr`
succeeded). -/
inductive CmdOption where
  | CMD_OPT_HOST (arg : String)
  | CMD_OPT_REMOTE_IDENTITY (arg : String)
  | CMD_OPT_IDENTITY (arg : String)
  | CMD_OPT_RSA
  | CMD_OPT_LOCAL_TS (arg : String) (parsed : Bool)
  | CMD_OPT_REMOTE_TS (arg : String) (parsed : Bool)
  | CMD_OPT_PROFILE (arg : String)
  | CMD_OPT_OTHER
deriving DecidableEq, Repr

/-- Result of one `handle` call: updated state, diagnostics, whether
`exit(1)` was reached, and `handle`'s boolean return value. -/
structure HandleStep where
  conn : Conn
  diags : List String
  exited : Bool
  handled : Bool
deriving DecidableEq, Repr

/-- `set_profile`: look the name up in `profile_names`; unknown names print
a diagnostic and exit. -/
def set_profile (self : Conn) (name : String) :
    Conn × List String × Bool :=
  match enum_from_name name with
  | none => (self, ["unknown connection profile: " ++ name], true)
  | some p => ({ self with profile := p }, [], false)

/-- `handle`: the option dispatcher. -/
def handle (self : Conn) (opt : CmdOption) : HandleStep :=
  match opt with
  | .CMD_OPT_HOST arg =>
      { conn := { self with host := some arg }, diags := [],
        exited := false, handled := true }
  | .CMD_OPT_REMOTE_IDENTITY arg =>
      { conn := { self with server := some arg }, diags := [],
        exited := false, handled := true }
  | .CMD_OPT_IDENTITY arg =>
      { conn := { self with identity := some arg }, diags := [],
        exited := false, handled := true }
  | .CMD_OPT_RSA =>
      { conn := { self with key_seen := true }, diags := [],
        exited := false, handled := true }
  | .CMD_OPT_LOCAL_TS arg parsed =>
      let s := add_ts self.local_ts arg parsed
      { conn := { self with local_ts := s.list }, diags := s.diags,
        exited := s.exited, handled := true }
  | .CMD_OPT_REMOTE_TS arg parsed =>
      let s := add_ts self.remote_ts arg parsed
      { conn := { self with remote_ts := s.list }, diags := s.diags,
        exited := s.exited, handled := true }
  | .CMD_OPT_PROFILE arg =>
      let r := set_profile self arg
      { conn := r.1, diags := r.2.1, exited := r.2.2, handled := true }
  | .CMD_OPT_OTHER =>
      { conn := self, diags := [], exited := false, handled := false }

/-- `cmd_connection_create`: fresh state with undefined profile, empty
remote set, and the local set seeded with one dynamic selector
(`traffic_selector_create_dynamic(0, 0, 65535)`). -/
def cmd_connection_create : Conn :=
  { host := none, server := none, identity := none, key_seen := false,
    profile := .PROF_UNDEF,
    local_ts := [.dynamic 0 0 65535], remote_ts := [] }

/-- State transition of one `handle` call (ignoring trace output). -/
def handle_step (self : Conn) (opt : CmdOption) : Conn :=
  (handle self opt).conn

/-- Fold a sequence of option-handling calls over the state. -/
def run_opts (self : Conn) (opts : List CmdOption) : Conn :=
  opts.foldl handle_step self

/-- The local-selector arguments a sequence of options successfully adds,
in order. -/
def local_ts_args : List CmdOption → List TrafficSelector
  | [] => []
  | .CMD_OPT_LOCAL_TS arg true :: rest =>
      .from_cidr arg 0 0 65535 :: local_ts_args rest
  | _ :: rest => local_ts_args rest

/-- The remote-selector arguments a sequence of options successfully adds,
in order. -/
def remote_ts_args : List CmdOption → List TrafficSelector
  | [] => []
  | .CMD_OPT_REMOTE_TS arg true :: rest =>
      .from_cidr arg 0 0 65535 :: remote_ts_args rest
  | _ :: rest => remote_ts_args rest

/-- The §4.2 table, written from the spec's words: each named profile's
ordered authentication sequence as (side, method) pairs, `true` = local. -/
def spec_auth_table : Profile → List (Bool × AuthClass)
  | .PROF_UNDEF => []
  | .PROF_V2_PUB => [(true, .AUTH_CLASS_PUBKEY), (false, .AUTH_CLASS_ANY)]
  | .PROF_V2_EAP => [(true, .AUTH_CLASS_EAP), (false, .AUTH_CLASS_ANY)]
  | .PROF_V2_PUB_EAP =>
      [(true, .AUTH_CLASS_PUBKEY), (true, .AUTH_CLASS_EAP),
       (false, .AUTH_CLASS_ANY)]
  | .PROF_V1_PUB =>
      [(true, .AUTH_CLASS_PUBKEY), (false, .AUTH_CLASS_PUBKEY)]
  | .PROF_V1_XAUTH =>
      [(true, .AUTH_CLASS_PUBKEY), (true, .AUTH_CLASS_XAUTH),
       (false, .AUTH_CLASS_PUBKEY)]
  | .PROF_V1_XAUTH_PSK =>
      [(true, .AUTH_CLASS_PSK), (true, .AUTH_CLASS_XAUTH),
       (false, .AUTH_CLASS_PSK)]
  | .PROF_V1_HYBRID =>
      [(true, .AUTH_CLASS_XAUTH), (false, .AUTH_CLASS_PUBKEY)]

/-- Written from the spec's words: `v2-*` profiles select version 2,
`v1-*` profiles version 1, undefined defaults to version 2. -/
def spec_profile_version : Profile → IkeVersion
  | .PROF_UNDEF | .PROF_V2_PUB | .PROF_V2_EAP | .PROF_V2_PUB_EAP =>
      .IKEV2
  | .PROF_V1_PUB | .PROF_V1_XAUTH | .PROF_V1_XAUTH_PSK
  | .PROF_V1_HYBRID => .IKEV1

/-- Draining moves the source, in order, to the end of the destination. -/
theorem drain_ts_eq (src dst : List TrafficSelector) :
    drain_ts src dst = ([], dst ++ src) := by
  induction src generalizing dst with
  | nil => simp [drain_ts]
  | cons ts rest ih => simp [drain_ts, ih]

/-- Inference never yields the undefined sentinel. -/
theorem infer_profile_ne_undef (p : Profile) (key_seen : Bool) :
    infer_profile p key_seen ≠ Profile.PROF_UNDEF := by
  cases p <;> cases key_seen <;> simp [infer_profile]

/-- `add_auth_cfgs` never takes the diagnostic-free default branch. -/
theorem add_auth_cfgs_not_default (self : Conn) (peer_cfg : PeerCfg) :
    add_auth_cfgs self peer_cfg ≠ AuthResult.fail_default := by
  rcases self with ⟨host, server, identity, key_seen, profile, lts, rts⟩
  cases profile <;> cases key_seen <;>
    simp [add_auth_cfgs, infer_profile, requires_key]

/-- `set_profile` never touches the selector sets. -/
theorem set_profile_ts (self : Conn) (name : String) :
    (set_profile self name).1.local_ts = self.local_ts
    ∧ (set_profile self name).1.remote_ts = self.remote_ts := by
  unfold set_profile
  cases enum_from_name name <;> simp

/-- Option handling only ever appends to the local selector set. -/
theorem run_opts_local_ts (self : Conn) (opts : List CmdOption) :
    (run_opts self opts).local_ts = self.local_ts ++ local_ts_args opts := by
  induction opts generalizing self with
  | nil => simp [run_opts, local_ts_args]
  | cons o rest ih =>
    have hc : run_opts self (o :: rest) = run_opts (handle_step self o) rest :=
      rfl
    rw [hc, ih]
    cases o with
    | CMD_OPT_LOCAL_TS arg parsed =>
        cases parsed <;>
          simp [handle_step, handle, add_ts, local_ts_args]
    | CMD_OPT_REMOTE_TS arg parsed =>
        cases parsed <;>
          simp [handle_step, handle, add_ts, local_ts_args]
    | CMD_OPT_PROFILE arg =>
        simp [handle_step, handle, local_ts_args, (set_profile_ts self arg).1]
    | _ => simp [handle_step, handle, local_ts_args]

/-- Option handling only ever appends to the remote selector set. -/
theorem run_opts_remote_ts (self : Conn) (opts : List CmdOption) :
    (run_opts self opts).remote_ts = self.remote_ts ++ remote_ts_args opts := by
  induction opts generalizing self with
  | nil => simp [run_opts, remote_ts_args]
  | cons o rest ih =>
    have hc : run_opts self (o :: rest) = run_opts (handle_step self o) rest :=
      rfl
    rw [hc, ih]
    cases o with
    | CMD_OPT_LOCAL_TS arg parsed =>
        cases parsed <;>
          simp [handle_step, handle, add_ts, remote_ts_args]
    | CMD_OPT_REMOTE_TS arg parsed =>
        cases parsed <;>
          simp [handle_step, handle, add_ts, remote_ts_args]
    | CMD_OPT_PROFILE arg =>
        simp [handle_step, handle, remote_ts_args, (set_profile_ts self arg).2]
    | _ => simp [handle_step, handle, remote_ts_args]

/-- C1: for every one of the seven named profiles, given the credential
precondition of the credential-requiring profiles, auth-config assembly
succeeds and emits exactly the ordered (side, method) sequence of the
§4.2 table, and the peer config carries version 2 for `v2-*` profiles and
version 1 for `v1-*` profiles. -/
theorem C1_profile_table (self : Conn) (local_port : Nat)
    (hne : self.profile ≠ Profile.PROF_UNDEF)
    (hcred : requires_key self.profile = true → self.key_seen = true) :
    ∃ self2 peer_cfg2,
      add_auth_cfgs self (create_peer_cfg self local_port) =
        AuthResult.ok self2 peer_cfg2
      ∧ peer_cfg2.auths.map (fun a => (a.is_local, a.auth_class)) =
          spec_auth_table self.profile
      ∧ (create_peer_cfg self local_port).ike_cfg.version =
          spec_profile_version self.profile := by
  rcases self with ⟨host, server, identity, key_seen, profile, lts, rts⟩
  cases profile <;>
    first
      | exact absurd rfl hne
      | (have hk := hcred rfl; subst hk; exact ⟨_, _, rfl, rfl, rfl⟩)
      | exact ⟨_, _, rfl, rfl, rfl⟩

/-- Witness for C1 at the `v1-hybrid` profile with no credential. -/
theorem C1_profile_table_witness :
    ∃ self2 peer_cfg2,
      add_auth_cfgs
          { host := some "vpn.example.com", server := none,
            identity := some "alice@example.com", key_seen := false,
            profile := .PROF_V1_HYBRID,
            local_ts := [.dynamic 0 0 65535], remote_ts := [] }
          (create_peer_cfg
            { host := some "vpn.example.com", server := none,
              identity := some "alice@example.com", key_seen := false,
              profile := .PROF_V1_HYBRID,
              local_ts := [.dynamic 0 0 65535], remote_ts := [] } 500) =
        AuthResult.ok self2 peer_cfg2
      ∧ peer_cfg2.auths.map (fun a => (a.is_local, a.auth_class)) =
          spec_auth_table .PROF_V1_HYBRID
      ∧ (create_peer_cfg
            { host := some "vpn.example.com", server := none,
              identity := some "alice@example.com", key_seen := false,
              profile := .PROF_V1_HYBRID,
              local_ts := [.dynamic 0 0 65535], remote_ts := [] }
            500).ike_cfg.version =
          spec_profile_version .PROF_V1_HYBRID :=
  C1_profile_table
    { host := some "vpn.example.com", server := none,
      identity := some "alice@example.com", key_seen := false,
      profile := .PROF_V1_HYBRID,
      local_ts := [.dynamic 0 0 65535], remote_ts := [] }
    500 (by decide) (by decide)

/-- C2: resolving the undefined sentinel infers `v2-pubkey` when a
credential was seen and `v2-eap` otherwise, and both the auth-config
assembly result and the assembled peer config (hence its version) are
identical to those of explicitly requesting the inferred profile. -/
theorem C2_undef_inference (self : Conn) (peer_cfg : PeerCfg)
    (local_port : Nat) (h : self.profile = Profile.PROF_UNDEF) :
    add_auth_cfgs self peer_cfg =
      add_auth_cfgs
        { self with profile :=
            if self.key_seen then Profile.PROF_V2_PUB
            else Profile.PROF_V2_EAP } peer_cfg
    ∧ create_peer_cfg self local_port =
        create_peer_cfg
          { self with profile :=
              if self.key_seen then Profile.PROF_V2_PUB
              else Profile.PROF_V2_EAP } local_port := by
  rcases self with ⟨host, server, identity, key_seen, profile, lts, rts⟩
  simp only at h
  subst h
  cases key_seen <;> exact ⟨rfl, rfl⟩

/-- Witness for C2 on a fresh builder state. -/
theorem C2_undef_inference_witness :
    add_auth_cfgs cmd_connection_create
        (create_peer_cfg cmd_connection_create 500) =
      add_auth_cfgs
        { cmd_connection_create with profile :=
            if cmd_connection_create.key_seen then Profile.PROF_V2_PUB
            else Profile.PROF_V2_EAP }
        (create_peer_cfg cmd_connection_create 500)
    ∧ create_peer_cfg cmd_connection_create 500 =
        create_peer_cfg
          { cmd_connection_create with profile :=
              if cmd_connection_create.key_seen then Profile.PROF_V2_PUB
              else Profile.PROF_V2_EAP } 500 :=
  C2_undef_inference cmd_connection_create
    (create_peer_cfg cmd_connection_create 500) 500 rfl

/-- C3: auth-config assembly fails with the missing-credential error if
and only if the profile, after inference, is one of `v2-pubkey`,
`v2-pubkey+eap`, `v1-pubkey`, `v1-xauth` and no credential was seen;
every other profile assembles without a credential. -/
theorem C3_missing_credential (self : Conn) (peer_cfg : PeerCfg) :
    (∃ msg, add_auth_cfgs self peer_cfg = AuthResult.fail_missing_key msg)
      ↔ ((infer_profile self.profile self.key_seen = Profile.PROF_V2_PUB
          ∨ infer_profile self.profile self.key_seen =
              Profile.PROF_V2_PUB_EAP
          ∨ infer_profile self.profile self.key_seen = Profile.PROF_V1_PUB
          ∨ infer_profile self.profile self.key_seen =
              Profile.PROF_V1_XAUTH)
         ∧ self.key_seen = false) := by
  rcases self with ⟨host, server, identity, key_seen, profile, lts, rts⟩
  cases profile <;> cases key_seen <;>
    simp [add_auth_cfgs, infer_profile, requires_key]

/-- Witness for C3: requesting `v2-pubkey` without a credential fails. -/
theorem C3_missing_credential_witness :
    ∃ msg,
      add_auth_cfgs
          { cmd_connection_create with profile := .PROF_V2_PUB }
          (create_peer_cfg
            { cmd_connection_create with profile := .PROF_V2_PUB } 500) =
        AuthResult.fail_missing_key msg :=
  (C3_missing_credential
      { cmd_connection_create with profile := .PROF_V2_PUB }
      (create_peer_cfg
        { cmd_connection_create with profile := .PROF_V2_PUB } 500)).mpr
    (by decide)

/-- C4: the controller's initiate operation is invoked exactly when host
and identity are present and auth-config assembly succeeds; when assembly
fails with the missing-credential error, the partially built peer config
is destroyed, the process is terminated, the controller is never invoked
and no configuration is handed over. -/
theorem C4_initiate_gating (self : Conn) (local_port : Nat)
    (ctrl : ControllerModel) :
    ((initiate self local_port ctrl).controller_called = true
      ↔ self.host ≠ none ∧ self.identity ≠ none
        ∧ ∃ self2 peer_cfg2,
            add_auth_cfgs self (create_peer_cfg self local_port) =
              AuthResult.ok self2 peer_cfg2)
    ∧ (∀ msg, self.host ≠ none → self.identity ≠ none →
        add_auth_cfgs self (create_peer_cfg self local_port) =
          AuthResult.fail_missing_key msg →
        (initiate self local_port ctrl).controller_called = false
        ∧ (initiate self local_port ctrl).terminated = true
        ∧ (initiate self local_port ctrl).peer_cfg_destroyed = true
        ∧ (initiate self local_port ctrl).handed_cfg = none) := by
  cases hh : self.host with
  | none => simp [initiate, hh]
  | some a =>
    cases hi : self.identity with
    | none => simp [initiate, hh, hi]
    | some b =>
      cases har : add_auth_cfgs self (create_peer_cfg self local_port) with
      | ok self2 peer_cfg2 => simp [initiate, hh, hi, har]
      | fail_missing_key msg => simp [initiate, hh, hi, har]
      | fail_default => simp [initiate, hh, hi, har]

/-- Witness for C4: `v2-pubkey` requested, no credential — terminated,
controller never invoked. -/
theorem C4_initiate_gating_witness :
    (initiate
        { host := some "vpn.example.com", server := none,
          identity := some "alice@example.com", key_seen := false,
          profile := .PROF_V2_PUB,
          local_ts := [.dynamic 0 0 65535], remote_ts := [] }
        500 ⟨.SUCCESS, []⟩).controller_called = false
    ∧ (initiate
        { host := some "vpn.example.com", server := none,
          identity := some "alice@example.com", key_seen := false,
          profile := .PROF_V2_PUB,
          local_ts := [.dynamic 0 0 65535], remote_ts := [] }
        500 ⟨.SUCCESS, []⟩).terminated = true
    ∧ (initiate
        { host := some "vpn.example.com", server := none,
          identity := some "alice@example.com", key_seen := false,
          profile := .PROF_V2_PUB,
          local_ts := [.dynamic 0 0 65535], remote_ts := [] }
        500 ⟨.SUCCESS, []⟩).peer_cfg_destroyed = true
    ∧ (initiate
        { host := some "vpn.example.com", server := none,
          identity := some "alice@example.com", key_seen := false,
          profile := .PROF_V2_PUB,
          local_ts := [.dynamic 0 0 65535], remote_ts := [] }
        500 ⟨.SUCCESS, []⟩).handed_cfg = none :=
  (C4_initiate_gating
      { host := some "vpn.example.com", server := none,
        identity := some "alice@example.com", key_seen := false,
        profile := .PROF_V2_PUB,
        local_ts := [.dynamic 0 0 65535], remote_ts := [] }
      500 ⟨.SUCCESS, []⟩).2
    "missing private key for profile ikev2-pub"
    (by simp) (by simp) rfl

/-- C5: the child config's remote selector list is exactly the synthesized
full-IPv4-range, all-ports selector when the remote set was empty, and
exactly the remote set (no default synthesized) otherwise. -/
theorem C5_default_remote (self : Conn) :
    (create_child_cfg self).2.remote_ts =
      (if self.remote_ts = [] then
        [TrafficSelector.ipv4_addr_range 0 "0.0.0.0" 0
          "255.255.255.255" 65535]
      else self.remote_ts) := by
  rcases self with ⟨host, server, identity, key_seen, profile, lts, rts⟩
  simp only [create_child_cfg, child_cfg_create, drain_ts_eq,
    default_remote_ts, List.length_eq_zero, List.nil_append]
  split <;> simp_all

/-- C6: for every sequence of option-handling calls, draining attaches to
the child config the local selectors (the seeded dynamic one first, then
the `--local-ts` values in insertion order) and the remote `--remote-ts`
values in insertion order (or the synthesized default when none), and
leaves both sets of the builder state empty. -/
theorem C6_drain_order (opts : List CmdOption) :
    (create_child_cfg (run_opts cmd_connection_create opts)).2.local_ts =
      TrafficSelector.dynamic 0 0 65535 :: local_ts_args opts
    ∧ (create_child_cfg (run_opts cmd_connection_create opts)).2.remote_ts =
        (if remote_ts_args opts = [] then [default_remote_ts]
         else remote_ts_args opts)
    ∧ (create_child_cfg (run_opts cmd_connection_create opts)).1.local_ts = []
    ∧ (create_child_cfg
        (run_opts cmd_connection_create opts)).1.remote_ts = [] := by
  have hl : (run_opts cmd_connection_create opts).local_ts =
      TrafficSelector.dynamic 0 0 65535 :: local_ts_args opts := by
    rw [run_opts_local_ts]; rfl
  have hr : (run_opts cmd_connection_create opts).remote_ts =
      remote_ts_args opts := by
    rw [run_opts_remote_ts]; rfl
  refine ⟨?_, ?_, ?_, ?_⟩
  all_goals
    simp only [create_child_cfg, child_cfg_create, drain_ts_eq, hl, hr,
      List.length_eq_zero, List.nil_append]
  all_goals
    first
      | rfl
      | (split <;> simp_all [default_remote_ts])

/-- C7: from construction onward, for every sequence of option-handling
calls, the local selector set contains the seeded dynamic selector
covering ports 0–65535. -/
theorem C7_dynamic_seed (opts : List CmdOption) :
    TrafficSelector.dynamic 0 0 65535 ∈
      (run_opts cmd_connection_create opts).local_ts := by
  rw [run_opts_local_ts]
  simp [cmd_connection_create]

/-- C8: the assembled IKE config's remote port is the standard IKE port
exactly when the queried local port is the standard port, and the
NAT-traversal fallback port otherwise. -/
theorem C8_remote_port (self : Conn) (local_port : Nat) :
    (create_peer_cfg self local_port).ike_cfg.other_port =
      (if local_port = IKEV2_UDP_PORT then IKEV2_UDP_PORT
       else IKEV2_NATT_PORT) := by
  by_cases h : local_port = IKEV2_UDP_PORT <;>
    simp [create_peer_cfg, h]

/-- C9: on every fatal path — missing host, missing identity, missing
credential, controller failure (given the controller's spec-modelled
diagnostics), invalid selector text, and unknown profile name — a
diagnostic message is emitted before termination / exit. -/
theorem C9_diagnostics :
    (∀ (self : Conn) (local_port : Nat) (ctrl : ControllerModel),
        ctrl.spec_valid →
        (initiate self local_port ctrl).terminated = true →
        (initiate self local_port ctrl).diags ≠ [])
    ∧ (∀ (list : List TrafficSelector) (string : String),
        (add_ts list string false).exited = true
        ∧ (add_ts list string false).diags ≠ [])
    ∧ (∀ (self : Conn) (name : String), enum_from_name name = none →
        (set_profile self name).2.2 = true
        ∧ (set_profile self name).2.1 ≠ []) := by
  refine ⟨?_, ?_, ?_⟩
  · intro self local_port ctrl hvalid hterm
    cases hh : self.host with
    | none => simp [initiate, hh]
    | some a =>
      cases hi : self.identity with
      | none => simp [initiate, hh, hi]
      | some b =>
        cases har : add_auth_cfgs self (create_peer_cfg self local_port) with
        | ok self2 peer_cfg2 =>
            rw [initiate] at hterm ⊢
            simp only [hh, hi, har] at hterm ⊢
            apply hvalid
            cases ho : ctrl.outcome with
            | SUCCESS => rw [ho] at hterm; exact absurd hterm (by decide)
            | FAILED => rfl
        | fail_missing_key msg => simp [initiate, hh, hi, har]
        | fail_default => exact absurd har (add_auth_cfgs_not_default _ _)
  · intro list string
    simp [add_ts]
  · intro self name hn
    simp [set_profile, hn]

/-- Witness for C9 on a fresh builder state (missing host). -/
theorem C9_diagnostics_witness :
    (initiate cmd_connection_create 500 ⟨.SUCCESS, []⟩).diags ≠ [] :=
  C9_diagnostics.1 cmd_connection_create 500 ⟨.SUCCESS, []⟩
    (by intro h; exact absurd h (by decide)) rfl

/-- C10: auth-config assembly never reaches the diagnostic-free default
branch of the sequence-emission switch — its result is success or the
missing-credential failure — and it fails exactly when the credential
check on the post-inference profile fails. -/
theorem C10_default_unreachable (self : Conn) (peer_cfg : PeerCfg) :
    ((∃ self2 peer_cfg2,
        add_auth_cfgs self peer_cfg = AuthResult.ok self2 peer_cfg2)
      ∨ (∃ msg,
          add_auth_cfgs self peer_cfg = AuthResult.fail_missing_key msg))
    ∧ ((∃ msg,
          add_auth_cfgs self peer_cfg = AuthResult.fail_missing_key msg)
        ↔ requires_key (infer_profile self.profile self.key_seen) = true
          ∧ self.key_seen = false) := by
  rcases self with ⟨host, server, identity, key_seen, profile, lts, rts⟩
  cases profile <;> cases key_seen <;>
    simp [add_auth_cfgs, infer_profile, requires_key]

end CmdConn
